import Mathlib

/-!
Verification development for the fluid-simulator repository.

The repository contains several GPU fluid engines built from full-screen
shader passes over double-buffered render targets:

* `src/src/engine/FluidEngine.ts` — the main engine (advection, vorticity
  confinement, divergence, 20 Jacobi pressure iterations, gradient
  subtraction, display), with shaders in `src/src/engine/shaders/`.
* `src/src/engine/SimpleFluidEngine.ts` — a density-only engine whose
  `update` drains its splat queue with `pop()`.
* `src/unnamed/part_005` — `FluidSimulation`, an index-based double-buffer
  engine whose `solvePressure` runs 20 Jacobi iterations without zeroing
  the pressure targets.
* `src/unnamed/part_006` — `OceanFluidEngine` (wave equation engine).
* `src/unnamed/part_007` — `SmokeFluidEngine` (smoke sources, curl +
  vorticity confinement, 30 Jacobi iterations) and a second
  `SimpleFluidEngine` that processes at most 5 splats per frame with
  `shift()`; also `createShaderPass`.
* `src/unnamed/part_009` — the brightness/contrast display shader.

This file embeds the buffer-pass structure and the per-cell shader
arithmetic of those engines and proves or refutes the specification
claims about them.
-/

/-! ## Buffer-level trace model of `FluidEngine`

`FluidEngine` owns three double-buffered quantities (velocity, density,
pressure), each a `{ read, write }` pair of render targets, plus the
single-buffered divergence, vorticity and display targets.  A frame is a
sequence of render passes; each pass samples source textures and renders
into one destination target, and the engine swaps a read/write pair right
after each pass that wrote its write half.  We model the physical buffer
instances, the per-frame pass/swap trace emitted by
`FluidEngine.update` (lines 168-239) and `FluidEngine.addSplat`
(lines 135-154), and the two discipline properties of claim C1. -/

/-- The three double-buffered quantities of `FluidEngine`. -/
inductive Quantity
  | vel
  | den
  | pres
  deriving DecidableEq, BEq, Repr

/-- Physical buffer instances of `FluidEngine`: the two halves of each
double-buffered pair (indexed by a `Bool`), and the three single
targets (`divergenceFBO`, `vorticityFBO`, `displayFBO`). -/
inductive Buf
  | velB : Bool → Buf
  | denB : Bool → Buf
  | prB : Bool → Buf
  | divB : Buf
  | vortB : Buf
  | dispB : Buf
  deriving DecidableEq, BEq, Repr

/-- Which physical buffer currently plays the `read` role for each
double-buffered quantity (a swap flips the corresponding flag). -/
structure BufAssign where
  velR : Bool
  denR : Bool
  prR : Bool
  deriving DecidableEq, Repr

/-- One event issued by the engine: a render pass (source buffers,
destination buffer), a `renderer.clear()` of one target, or a read/write
swap of a double-buffered quantity. -/
inductive Step
  | pass : List Buf → Buf → Step
  | clearBuf : Buf → Step
  | swap : Quantity → Step
  deriving DecidableEq, BEq, Repr

/-- The double-buffered quantity a buffer instance belongs to, if any. -/
def dbQ : Buf → Option Quantity
  | .velB _ => some .vel
  | .denB _ => some .den
  | .prB _ => some .pres
  | _ => none

/-- Trace of the pressure Jacobi loop of `FluidEngine.update`
(lines 213-221): each iteration renders from the pressure read buffer
(and the divergence buffer) into the pressure write buffer, then swaps.
Returns the trace together with the read index after the loop. -/
def jacobiTrace : Nat → Bool → List Step × Bool
  | 0, r => ([], r)
  | n + 1, r =>
    let rest := jacobiTrace n (!r)
    (Step.pass [Buf.prB r, Buf.divB] (Buf.prB (!r)) :: Step.swap Quantity.pres :: rest.1,
     rest.2)

/-- The pass/swap trace of one `FluidEngine.update(dt)` call
(FluidEngine.ts lines 168-239), as a function of whether the vorticity
stage runs (`config.vorticity > 0`) and of the current read/write
assignment.  Stages in order: velocity self-advection, density
advection, optional vorticity confinement, divergence, pressure clear,
20 Jacobi iterations, gradient subtraction, display. -/
def updateTrace (vortOn : Bool) (a : BufAssign) : List Step :=
  let v0 := a.velR
  let v1 := !v0
  let advV := [Step.pass [Buf.velB v0] (Buf.velB v1), Step.swap Quantity.vel]
  let advD := [Step.pass [Buf.velB v1, Buf.denB a.denR] (Buf.denB (!a.denR)),
               Step.swap Quantity.den]
  let vortT := if vortOn then
      [Step.pass [Buf.velB v1] (Buf.velB (!v1)), Step.swap Quantity.vel] else []
  let v2 := if vortOn then !v1 else v1
  let divT := [Step.pass [Buf.velB v2] Buf.divB]
  let clr := [Step.clearBuf (Buf.prB a.prR)]
  let jac := jacobiTrace 20 a.prR
  let grad := [Step.pass [Buf.velB v2, Buf.prB jac.2] (Buf.velB (!v2)),
               Step.swap Quantity.vel]
  let disp := [Step.pass [Buf.denB (!a.denR)] Buf.dispB]
  advV ++ advD ++ vortT ++ divT ++ clr ++ jac.1 ++ grad ++ disp

/-- The pass/swap trace of one `FluidEngine.addSplat` call
(FluidEngine.ts lines 135-154): a splat pass into the velocity write
buffer followed by a velocity swap, then a splat pass into the density
write buffer followed by a density swap. -/
def addSplatTrace (a : BufAssign) : List Step :=
  [Step.pass [Buf.velB a.velR] (Buf.velB (!a.velR)), Step.swap Quantity.vel,
   Step.pass [Buf.denB a.denR] (Buf.denB (!a.denR)), Step.swap Quantity.den]

/-- A pass never renders into a buffer it samples from. -/
def stepOk : Step → Bool
  | .pass srcs dst => !(srcs.contains dst)
  | _ => true

/-- Every pass of the trace reads only buffers distinct from its
destination. -/
def noSelfRW (t : List Step) : Bool := t.all stepOk

/-- Swap discipline: every pass whose destination belongs to a
double-buffered quantity is immediately followed by exactly one swap of
that same quantity, and swaps occur nowhere else.  `renderer.clear()`
events are not passes and are skipped. -/
def disciplined : List Step → Bool
  | [] => true
  | Step.clearBuf _ :: rest => disciplined rest
  | Step.swap _ :: _ => false
  | Step.pass _ d :: rest =>
    match dbQ d with
    | none => disciplined rest
    | some q =>
      match rest with
      | Step.swap q' :: rest2 => q == q' && disciplined rest2
      | _ => false

/-- Number of render passes in a trace. -/
def passCount (t : List Step) : Nat :=
  (t.filter fun s => match s with | .pass _ _ => true | _ => false).length

/-! ## Splat queues

Three engines maintain a queue of pending splats/waves:

* `src/src/engine/SimpleFluidEngine.ts` (lines 167-184): inside
  `update`, `while (this.splats.length > 0) { const splat = this.splats.pop()!; ... }`
  — every queued splat is processed in the same frame, taken from the
  *end* of the array.
* part_007 `SimpleFluidEngine.update` (lines 893-918): at most
  `Math.min(this.splats.length, 5)` splats are taken per frame with
  `shift()` (from the front), the rest stay queued.
* part_006 `OceanFluidEngine.update` (lines 391-407): at most 3 waves
  per frame with `shift()`. -/

/-- A queued splat of the simple engines (position, impulse, color,
radius), with rational components so queue processing is decidable. -/
structure Splat where
  x : ℚ
  y : ℚ
  dx : ℚ
  dy : ℚ
  cr : ℚ
  cg : ℚ
  cb : ℚ
  radius : ℚ
  deriving DecidableEq, Repr

/-- A queued wave impact of `OceanFluidEngine`. -/
structure Wave where
  x : ℚ
  y : ℚ
  strength : ℚ
  radius : ℚ
  deriving DecidableEq, Repr

/-- Fuel-indexed helper for the `pop()` drain loop of
`SimpleFluidEngine.ts`: each step removes and applies the *last*
element of the queue, until the queue is empty. -/
def drainPopAux : Nat → List Splat → List Splat
  | 0, _ => []
  | _ + 1, [] => []
  | n + 1, x :: xs =>
    (x :: xs).getLast (by simp) :: drainPopAux n (x :: xs).dropLast

/-- The order in which `SimpleFluidEngine.ts` (lines 167-184) applies
queued splats within a single `update` call: the `while`/`pop` loop
applies the whole queue, last-queued first. -/
def SimpleTS.appliedOrder (q : List Splat) : List Splat :=
  drainPopAux q.length q

/-- part_007 `SimpleFluidEngine.update` splat step (lines 893-918):
`Math.min(length, 5)` splats are removed from the front with `shift()`
and applied in that order; the rest remain queued. -/
def Simple007.stepQueue (q : List Splat) : List Splat × List Splat :=
  (q.take 5, q.drop 5)

/-- part_006 `OceanFluidEngine.update` wave step (lines 391-407): at
most 3 waves are removed from the front with `shift()`; the rest remain
queued. -/
def OceanEngine.stepWaves (q : List Wave) : List Wave × List Wave :=
  (q.take 3, q.drop 3)

/-- Iterated frames of the part_007 splat queue with no new arrivals:
returns the per-frame applied lists (in frame order) and the final
queue. -/
def Simple007.runFrames : Nat → List Splat → List (List Splat) × List Splat
  | 0, q => ([], q)
  | n + 1, q =>
    let rest := Simple007.runFrames n (Simple007.stepQueue q).2
    ((Simple007.stepQueue q).1 :: rest.1, rest.2)

/-! ## Smoke sources (part_007 `SmokeFluidEngine`)

The constructor installs three persistent colored smoke vents
(part_007 lines 417-442); `reset()` (lines 637-640) calls `clear()` and
resets `time` but leaves `smokeSources` untouched. -/

/-- A continuous smoke emitter of `SmokeFluidEngine` (position,
velocity, color, temperature, density, radius). -/
structure SmokeSource where
  posX : ℚ
  posY : ℚ
  velX : ℚ
  velY : ℚ
  colR : ℚ
  colG : ℚ
  colB : ℚ
  temperature : ℚ
  density : ℚ
  radius : ℚ
  deriving DecidableEq, Repr

/-- The three smoke vents installed by the `SmokeFluidEngine`
constructor: red at (0.2, 0.1), green at (0.5, 0.1), blue at
(0.8, 0.1). -/
def initialSmokeSources : List SmokeSource :=
  [⟨1/5, 1/10, 0, 2, 1, 1/5, 1/5, 3/2, 2, 1/25⟩,
   ⟨1/2, 1/10, 0, 11/5, 1/5, 1, 1/5, 8/5, 2, 1/25⟩,
   ⟨4/5, 1/10, 0, 9/5, 1/5, 1/5, 1, 7/5, 2, 1/25⟩]

/-! ## Per-cell numeric model

The shaders run on `width × height` textures of `vec4` samples with
`LinearFilter` minification/magnification and clamp-to-edge wrap.  We
model a texture as a total function on integer texel coordinates (reads
clamp into `[0, width-1] × [0, height-1]`, so values outside the grid
are irrelevant to any pass), with real-valued channels: 2 channels for
velocity, 3 for color/density, 1 for scalar fields.  `texture2D(T, uv)`
with linear filtering is bilinear interpolation of the four surrounding
texels of `uv * size - 0.5`, which at exact texel centers reduces to
the texel value.  Fragment `vUv` at texel `(i, j)` is
`((i + 0.5) / width, (j + 0.5) / height)`. -/

noncomputable section

/-- Two-channel sample (`.xy` of a texture). -/
abbrev V2 : Type := ℝ × ℝ

/-- Three-channel sample (`.rgb` / `.xyz` of a texture). -/
abbrev V3 : Type := ℝ × ℝ × ℝ

/-- A texture: per-texel samples, addressed by integer texel
coordinates. -/
abbrev Tex (V : Type) : Type := ℤ → ℤ → V

/-- Clamp-to-edge of a texel index for a texture of size `n`. -/
def clampIdx (n : ℕ) (i : ℤ) : ℤ := max 0 (min ((n : ℤ) - 1) i)

/-- Read one texel with clamp-to-edge wrap. -/
def texelFetch {V : Type} (w h : ℕ) (F : Tex V) (i j : ℤ) : V :=
  F (clampIdx w i) (clampIdx h j)

/-- The `vUv` coordinate of texel `i` along an axis of `n` texels. -/
def centerUV (n : ℕ) (i : ℤ) : ℝ := ((i : ℝ) + 1 / 2) / (n : ℝ)

/-- `texture2D` with `LinearFilter` and clamp-to-edge: bilinear
interpolation of the four texels around `uv * size - 0.5`. -/
def sample {V : Type} [AddCommMonoid V] [Module ℝ V]
    (w h : ℕ) (F : Tex V) (u v : ℝ) : V :=
  let tx : ℝ := u * (w : ℝ) - 1 / 2
  let ty : ℝ := v * (h : ℝ) - 1 / 2
  let i0 : ℤ := ⌊tx⌋
  let j0 : ℤ := ⌊ty⌋
  let fx : ℝ := tx - (i0 : ℝ)
  let fy : ℝ := ty - (j0 : ℝ)
  ((1 - fx) * (1 - fy)) • texelFetch w h F i0 j0
    + (fx * (1 - fy)) • texelFetch w h F (i0 + 1) j0
    + ((1 - fx) * fy) • texelFetch w h F i0 (j0 + 1)
    + (fx * fy) • texelFetch w h F (i0 + 1) (j0 + 1)

/-- GLSL `length` of a `vec2`. -/
def glLength2 (v : V2) : ℝ := Real.sqrt (v.1 ^ 2 + v.2 ^ 2)

/-- GLSL `normalize` of a `vec2`: the vector divided by its length
(`glLength2` is the normalization denominator). -/
def glNormalize2 (v : V2) : V2 := (v.1 / glLength2 v, v.2 / glLength2 v)

/-- GLSL `clamp(x, 0.0, 1.0)`. -/
def clamp01 (x : ℝ) : ℝ := min 1 (max 0 x)

/-- The regularization constant `0.00001` broadcast to a `vec2`, as in
`direction + 0.00001` of the vorticity shaders. -/
def vEps : V2 := (1 / 100000, 1 / 100000)

/-! ### Shader kernels

Each kernel is the fragment shader of one pass, written per output
texel: `kernel ... i j` is the value the pass writes at texel `(i, j)`,
computed from samples of its source textures at `vUv` plus stencil
offsets `uTexelSize = (1/width, 1/height)`. -/

/-- `advectionShader` (src/src/engine/shaders/advection.ts, also the
part_005 and part_007 advection shaders): trace back along the velocity
field by `dt * texelSize`, resample the source there, and multiply by
the dissipation factor. -/
def advectionKernel {V : Type} [AddCommMonoid V] [Module ℝ V]
    (w h : ℕ) (vel : Tex V2) (src : Tex V) (dt dissipation : ℝ) : Tex V :=
  fun i j =>
    let u := centerUV w i
    let v := centerUV h j
    let vv := sample w h vel u v
    dissipation •
      sample w h src (u - dt * vv.1 * (1 / (w : ℝ))) (v - dt * vv.2 * (1 / (h : ℝ)))

/-- `divergenceShader` (src/src/engine/shaders, also part_007):
`0.5 * ((xRight.x - xLeft.x) + (yTop.y - yBottom.y))`. -/
def divergencePass (w h : ℕ) (vel : Tex V2) : Tex ℝ := fun i j =>
  let u := centerUV w i
  let v := centerUV h j
  let xL := sample w h vel (u - 1 / (w : ℝ)) v
  let xR := sample w h vel (u + 1 / (w : ℝ)) v
  let yB := sample w h vel u (v - 1 / (h : ℝ))
  let yT := sample w h vel u (v + 1 / (h : ℝ))
  ((xR.1 - xL.1) + (yT.2 - yB.2)) * (1 / 2)

/-- `pressureShader` (src/src/engine/shaders/pressure.ts, identical in
part_007 and src/src/shaders/pressureShader.glsl): one Jacobi
iteration, `(pLeft + pRight + pBottom + pTop - divergence) * 0.25`. -/
def pressurePass (w h : ℕ) (p divg : Tex ℝ) : Tex ℝ := fun i j =>
  let u := centerUV w i
  let v := centerUV h j
  let d := sample w h divg u v
  let pL := sample w h p (u - 1 / (w : ℝ)) v
  let pR := sample w h p (u + 1 / (w : ℝ)) v
  let pB := sample w h p u (v - 1 / (h : ℝ))
  let pT := sample w h p u (v + 1 / (h : ℝ))
  (pL + pR + pB + pT - d) * (1 / 4)

/-- `gradientSubtractShader` (src/src/engine/shaders, also part_007):
`velocity -= 0.5 * (pRight - pLeft, pTop - pBottom)`. -/
def gradientSubtractPass (w h : ℕ) (vel : Tex V2) (p : Tex ℝ) : Tex V2 := fun i j =>
  let u := centerUV w i
  let v := centerUV h j
  let velocity := sample w h vel u v
  let pL := sample w h p (u - 1 / (w : ℝ)) v
  let pR := sample w h p (u + 1 / (w : ℝ)) v
  let pB := sample w h p u (v - 1 / (h : ℝ))
  let pT := sample w h p u (v + 1 / (h : ℝ))
  (velocity.1 - (pR - pL) * (1 / 2), velocity.2 - (pT - pB) * (1 / 2))

/-- The `direction` vector of `vorticityShader`
(src/src/engine/shaders/vorticity.ts lines 29-30):
`vec2(abs((yTop.x - yBottom.x) * 0.5), abs((xRight.y - xLeft.y) * 0.5))`
— the componentwise absolute values of the two curl terms. -/
def feDirection (w h : ℕ) (vel : Tex V2) (i j : ℤ) : V2 :=
  let u := centerUV w i
  let v := centerUV h j
  let xL := sample w h vel (u - 1 / (w : ℝ)) v
  let xR := sample w h vel (u + 1 / (w : ℝ)) v
  let yB := sample w h vel u (v - 1 / (h : ℝ))
  let yT := sample w h vel u (v + 1 / (h : ℝ))
  (|(yT.1 - yB.1) * (1 / 2)|, |(xR.2 - xL.2) * (1 / 2)|)

/-- `vorticityShader` (src/src/engine/shaders/vorticity.ts): computes
the local curl `((xRight.y - xLeft.y) - (yTop.x - yBottom.x)) * 0.5`,
normalizes `direction + 0.00001`, and adds
`uCurl * vorticity * direction * uDt` to the velocity. -/
def vorticityKernelFE (w h : ℕ) (vel : Tex V2) (uCurl dt : ℝ) : Tex V2 := fun i j =>
  let u := centerUV w i
  let v := centerUV h j
  let xL := sample w h vel (u - 1 / (w : ℝ)) v
  let xR := sample w h vel (u + 1 / (w : ℝ)) v
  let yB := sample w h vel u (v - 1 / (h : ℝ))
  let yT := sample w h vel u (v + 1 / (h : ℝ))
  let velocity := sample w h vel u v
  let vorticity := ((xR.2 - xL.2) - (yT.1 - yB.1)) * (1 / 2)
  let dirn := glNormalize2 (feDirection w h vel i j + vEps)
  velocity + dt • ((uCurl * vorticity) • dirn)

/-- The `curl` shader of part_007 (lines 245-272):
`((xRight.y - xLeft.y) - (yTop.x - yBottom.x)) * 0.5`. -/
def curlPass (w h : ℕ) (vel : Tex V2) : Tex ℝ := fun i j =>
  let u := centerUV w i
  let v := centerUV h j
  let xL := sample w h vel (u - 1 / (w : ℝ)) v
  let xR := sample w h vel (u + 1 / (w : ℝ)) v
  let yB := sample w h vel u (v - 1 / (h : ℝ))
  let yT := sample w h vel u (v + 1 / (h : ℝ))
  ((xR.2 - xL.2) - (yT.1 - yB.1)) * (1 / 2)

/-- The pre-normalization force vector of part_007's vorticity shader
(line 229): `vec2(abs(cTop) - abs(cBottom), abs(cLeft) - abs(cRight))`
sampled from the curl texture. -/
def smokeForce0 (w h : ℕ) (curlF : Tex ℝ) (i j : ℤ) : V2 :=
  let u := centerUV w i
  let v := centerUV h j
  let cL := sample w h curlF (u - 1 / (w : ℝ)) v
  let cR := sample w h curlF (u + 1 / (w : ℝ)) v
  let cB := sample w h curlF u (v - 1 / (h : ℝ))
  let cT := sample w h curlF u (v + 1 / (h : ℝ))
  (|cT| - |cB|, |cL| - |cR|)

/-- The vorticity-confinement shader of part_007 (lines 204-243):
`force = normalize(force + 0.00001) * uCurlStrength * cCenter`,
`velocity += force * uDt`, with the curl sampled from a separate curl
texture. -/
def smokeVorticityKernel (w h : ℕ) (vel : Tex V2) (curlF : Tex ℝ)
    (uCurlStrength dt : ℝ) : Tex V2 := fun i j =>
  let u := centerUV w i
  let v := centerUV h j
  let velocity := sample w h vel u v
  let cC := sample w h curlF u v
  let force := (uCurlStrength * cC) • glNormalize2 (smokeForce0 w h curlF i j + vEps)
  velocity + dt • force

/-- The Gaussian-style falloff of `splatShader`
(src/src/engine/shaders/splat.ts lines 21-29): `p = vUv - uPoint` with
`p.x *= uAspectRatio`, falloff `exp(-dot(p, p) / uRadius)` — note the
exponent divides by the radius, not the squared radius. -/
def feSplatFalloff (p center : V2) (aspect radius : ℝ) : ℝ :=
  Real.exp (-(((p.1 - center.1) * aspect) ^ 2 + (p.2 - center.2) ^ 2) / radius)

/-- The per-cell contribution of `splatShader` as a 3-vector:
`splat * uColor` with `splatShader`'s falloff. -/
def feSplatContribution (p center : V2) (aspect radius : ℝ) (magnitude : V3) : V3 :=
  feSplatFalloff p center aspect radius • magnitude

/-- Modelled from the spec: the claimed per-cell contribution
`exp(-|p - center|^2 / radius^2) * magnitude` with `p`
aspect-ratio-corrected (`p.x` scaled by the aspect ratio).  This is the
formula of spec section 4.3, for comparison against the kernels in the
source. -/
def specSplatContribution (p center : V2) (aspect radius : ℝ) (magnitude : V3) : V3 :=
  Real.exp (-(((p.1 - center.1) * aspect) ^ 2 + (p.2 - center.2) ^ 2) / radius ^ 2) •
    magnitude

/-- The per-cell contribution of the `addSource` shader of part_007
(lines 282-305): falloff `exp(-dot(p, p) / (uRadius * uRadius))` with
*no* aspect correction, times `uColor * uIntensity`. -/
def addSourceContribution (p center : V2) (radius intensity : ℝ) (color : V3) : V3 :=
  (Real.exp (-((p.1 - center.1) ^ 2 + (p.2 - center.2) ^ 2) / (radius * radius))
      * intensity) • color

/-- The splat pass of `FluidEngine.addSplat` applied to the velocity
target: the written `.xy` is the sampled base plus
`splat * (dx, dy)` (the `.xy` of `uColor = (dx, dy, 0)`), with
`uAspectRatio = width / height`. -/
def splatVelPass (w h : ℕ) (x y dx dy radius : ℝ) (target : Tex V2) : Tex V2 :=
  fun i j =>
    sample w h target (centerUV w i) (centerUV h j)
      + feSplatFalloff (centerUV w i, centerUV h j) (x, y) ((w : ℝ) / (h : ℝ)) radius •
          ((dx, dy) : V2)

/-- The splat pass of `FluidEngine.addSplat` applied to the density
target (same `uPoint`, `uRadius`, `uAspectRatio` uniforms as the
velocity pass, since only `uTarget` and `uColor` are reset). -/
def splatColorPass (w h : ℕ) (x y radius : ℝ) (color : V3) (target : Tex V3) : Tex V3 :=
  fun i j =>
    sample w h target (centerUV w i) (centerUV h j)
      + feSplatContribution (centerUV w i, centerUV h j) (x, y) ((w : ℝ) / (h : ℝ))
          radius color

/-- The `addSource` pass of part_007 `SmokeFluidEngine` over a
3-channel target. -/
def addSourcePass (w h : ℕ) (px py radius intensity : ℝ) (color : V3)
    (target : Tex V3) : Tex V3 := fun i j =>
  sample w h target (centerUV w i) (centerUV h j)
    + addSourceContribution (centerUV w i, centerUV h j) (px, py) radius intensity color

/-- The splat shader of part_007 `SimpleFluidEngine` (lines 740-753):
falloff `exp(-dot(p, p) / (uRadius * uRadius))`, no aspect correction,
added to the sampled base. -/
def simpleSplatPass (w h : ℕ) (sp : Splat) (target : Tex V3) : Tex V3 := fun i j =>
  sample w h target (centerUV w i) (centerUV h j)
    + Real.exp (-((centerUV w i - (sp.x : ℝ)) ^ 2 + (centerUV h j - (sp.y : ℝ)) ^ 2)
          / ((sp.radius : ℝ) * (sp.radius : ℝ))) •
        (((sp.cr : ℝ), (sp.cg : ℝ), (sp.cb : ℝ)) : V3)

/-- The fade shader of part_007 `SimpleFluidEngine` (lines 762-784):
`color.rgb * uFade`. -/
def fadePass (w h : ℕ) (tex : Tex V3) (fade : ℝ) : Tex V3 := fun i j =>
  fade • sample w h tex (centerUV w i) (centerUV h j)

/-- `displayShader` of part_009 (lines 19-30) per channel:
`(d - 0.5) * uContrast + 0.5`, then `* uBrightness`, then
`clamp(_, 0.0, 1.0)`. -/
def displayChannelFE (d brightness contrast : ℝ) : ℝ :=
  clamp01 (((d - 1 / 2) * contrast + 1 / 2) * brightness)

/-- The part_009 display pass on a density texture. -/
def displayPassFE (w h : ℕ) (den : Tex V3) (brightness contrast : ℝ) : Tex V3 :=
  fun i j =>
    let d := sample w h den (centerUV w i) (centerUV h j)
    (displayChannelFE d.1 brightness contrast,
     displayChannelFE d.2.1 brightness contrast,
     displayChannelFE d.2.2 brightness contrast)

/-- The display shader of part_007 `SimpleFluidEngine` (lines 794-805)
per channel: `pow(color, 0.45)` then `clamp(color * 1.5, 0.0, 1.0)`. -/
def displayChannelSimple (d : ℝ) : ℝ := clamp01 (Real.rpow d (9 / 20) * (3 / 2))

/-- The part_007 `SimpleFluidEngine` display pass. -/
def displaySimplePass (w h : ℕ) (den : Tex V3) : Tex V3 := fun i j =>
  let d := sample w h den (centerUV w i) (centerUV h j)
  (displayChannelSimple d.1, displayChannelSimple d.2.1, displayChannelSimple d.2.2)

/-! ## `FluidEngine` (src/src/engine/FluidEngine.ts)

Field contents of the engine, abstracting the read/write buffer pairs
to their authoritative (read) contents; the pass/swap bookkeeping of
the physical pairs is the trace model above. -/

/-- The configuration object of `FluidEngine` (lines 35-43), without
the string-valued `colorMode` (unused by any pass). -/
structure FEConfig where
  viscosity : ℝ
  diffusion : ℝ
  pressureK : ℝ
  vorticity : ℝ
  brightness : ℝ
  contrast : ℝ

/-- The defaults of `FluidEngine`'s `config` initializer: viscosity
`0.0001`, diffusion `0.00001`, pressure `0.8`, vorticity `30`,
brightness `1`, contrast `1`. -/
def FEConfig.default : FEConfig := ⟨1 / 10000, 1 / 100000, 8 / 10, 30, 1, 1⟩

/-- The authoritative field contents of `FluidEngine`: velocity,
density, pressure (read halves of the double-buffered pairs), plus the
single-buffered divergence, vorticity and display targets. -/
@[ext]
structure FEState where
  velocity : Tex V2
  density : Tex V3
  pressure : Tex ℝ
  divergence : Tex ℝ
  vorticity : Tex ℝ
  display : Tex V3

/-- The all-zero field state: every render target of `FluidEngine` is
zero after construction (fresh targets plus the constructor's
`clear()`). -/
def FEState.zero : FEState :=
  { velocity := fun _ _ => (0, 0), density := fun _ _ => (0, 0, 0),
    pressure := fun _ _ => 0, divergence := fun _ _ => 0,
    vorticity := fun _ _ => 0, display := fun _ _ => (0, 0, 0) }

/-- Velocity after the self-advection stage of `FluidEngine.update`
(lines 169-178): dissipation `1 - config.viscosity`. -/
def FluidEngine.advectedVelocity (w h : ℕ) (cfg : FEConfig) (dt : ℝ)
    (s : FEState) : Tex V2 :=
  advectionKernel w h s.velocity s.velocity dt (1 - cfg.viscosity)

/-- Velocity after the optional vorticity-confinement stage
(lines 189-199), which runs iff `config.vorticity > 0`. -/
def FluidEngine.velocityAfterForces (w h : ℕ) (cfg : FEConfig) (dt : ℝ)
    (s : FEState) : Tex V2 :=
  if 0 < cfg.vorticity then
    vorticityKernelFE w h (FluidEngine.advectedVelocity w h cfg dt s) cfg.vorticity dt
  else FluidEngine.advectedVelocity w h cfg dt s

/-- The divergence computed by `FluidEngine.update` (lines 202-206)
from the advected (and vorticity-confined) velocity. -/
def FluidEngine.frameDivergence (w h : ℕ) (cfg : FEConfig) (dt : ℝ)
    (s : FEState) : Tex ℝ :=
  divergencePass w h (FluidEngine.velocityAfterForces w h cfg dt s)

/-- The pressure produced by `FluidEngine.update` (lines 208-221): the
read target is cleared to zero, then 20 Jacobi iterations each render
`pressureShader` and swap. -/
def FluidEngine.solvedPressure (w h : ℕ) (cfg : FEConfig) (dt : ℝ)
    (s : FEState) : Tex ℝ :=
  (fun p0 => pressurePass w h p0 (FluidEngine.frameDivergence w h cfg dt s))^[20]
    (fun _ _ => 0)

/-- Density after the density-advection stage (lines 181-187):
dissipation `1 - config.diffusion`, advected along the
already-advected velocity (the velocity pair was swapped first). -/
def FluidEngine.advectedDensity (w h : ℕ) (cfg : FEConfig) (dt : ℝ)
    (s : FEState) : Tex V3 :=
  advectionKernel w h (FluidEngine.advectedVelocity w h cfg dt s) s.density dt
    (1 - cfg.diffusion)

/-- One `FluidEngine.update(dt)` call (lines 168-239): velocity
self-advection, density advection, optional vorticity confinement,
divergence, zero-initialized 20-iteration Jacobi pressure solve,
gradient subtraction, display. -/
def FluidEngine.update (w h : ℕ) (cfg : FEConfig) (dt : ℝ) (s : FEState) : FEState :=
  { velocity := gradientSubtractPass w h (FluidEngine.velocityAfterForces w h cfg dt s)
      (FluidEngine.solvedPressure w h cfg dt s),
    density := FluidEngine.advectedDensity w h cfg dt s,
    pressure := FluidEngine.solvedPressure w h cfg dt s,
    divergence := FluidEngine.frameDivergence w h cfg dt s,
    vorticity := s.vorticity,
    display := displayPassFE w h (FluidEngine.advectedDensity w h cfg dt s)
      cfg.brightness cfg.contrast }

/-- `FluidEngine.addSplat` (lines 135-154): one splat pass into the
velocity pair (impulse `(dx, dy)`), swap, one splat pass into the
density pair (the color, reusing `uPoint`, `uRadius`, `uAspectRatio`),
swap.  Pressure, divergence, vorticity and display targets are not
rendered to. -/
def FluidEngine.addSplat (w h : ℕ) (x y dx dy : ℝ) (color : V3) (radius : ℝ)
    (s : FEState) : FEState :=
  { s with
    velocity := splatVelPass w h x y dx dy radius s.velocity,
    density := splatColorPass w h x y radius color s.density }

/-- `FluidEngine.clear` (lines 97-124): renders zero into the velocity,
density and pressure pairs and into the divergence and vorticity
targets.  The display target is *not* in the list. -/
def FluidEngine.clearFields (s : FEState) : FEState :=
  { s with
    velocity := fun _ _ => (0, 0), density := fun _ _ => (0, 0, 0),
    pressure := fun _ _ => 0, divergence := fun _ _ => 0,
    vorticity := fun _ _ => 0 }

/-- The parameters of one random splat drawn by
`FluidEngine.addRandomSplats` (lines 156-166): position, impulse and
color (the radius is the fixed `0.1`). -/
structure SplatParams where
  x : ℝ
  y : ℝ
  dx : ℝ
  dy : ℝ
  r : ℝ
  g : ℝ
  b : ℝ

/-- `FluidEngine.addRandomSplats` (lines 156-166) with the random draws
made explicit as a parameter list: one `addSplat` per entry, radius
`0.1`. -/
def FluidEngine.addRandomSplats (w h : ℕ) (ps : List SplatParams) (s : FEState) :
    FEState :=
  ps.foldl (fun st p => FluidEngine.addSplat w h p.x p.y p.dx p.dy (p.r, p.g, p.b)
    (1 / 10) st) s

/-- `FluidEngine.reset` (lines 126-129): `clear()` followed by
`addRandomSplats(5)` (the five random draws passed explicitly). -/
def FluidEngine.reset (w h : ℕ) (ps : List SplatParams) (s : FEState) : FEState :=
  FluidEngine.addRandomSplats w h ps (FluidEngine.clearFields s)

/-! ## `FluidSimulation` (part_005 lines 106-379)

This engine stores each quantity as a two-element render-target array
with a shared `currentIndex` for velocity and density, and a
`pressureRenderTargets` array.  `solvePressure` (lines 295-308) starts
its local `pressureIndex` at 0 every call and runs 20 iterations; no
pass ever clears the pressure targets, so the solve continues from
whatever the pressure targets already hold. -/

/-- The render-target contents of part_005 `FluidSimulation`:
two-element arrays indexed by `Bool` (`false` = index 0), the
divergence target, and the shared `currentIndex`. -/
structure FSState where
  vel : Bool → Tex V2
  den : Bool → Tex V3
  press : Bool → Tex ℝ
  divg : Tex ℝ
  currentIndex : Bool

/-- `FluidSimulation.advectVelocity` (lines 262-273): renders the
advection shader from `velocityRenderTargets[currentIndex]` into
`[1 - currentIndex]` with dissipation `0.99`, then flips
`currentIndex`. -/
def FluidSimulation.advectVelocity (w h : ℕ) (dt : ℝ) (s : FSState) : FSState :=
  { s with
    vel := Function.update s.vel (!s.currentIndex)
      (advectionKernel w h (s.vel s.currentIndex) (s.vel s.currentIndex) dt (99 / 100)),
    currentIndex := !s.currentIndex }

/-- `FluidSimulation.advectDensity` (lines 275-286): advects
`densityRenderTargets[currentIndex]` along the current velocity with
dissipation `0.98` into `[1 - currentIndex]`; `currentIndex` is *not*
flipped here. -/
def FluidSimulation.advectDensity (w h : ℕ) (dt : ℝ) (s : FSState) : FSState :=
  { s with
    den := Function.update s.den (!s.currentIndex)
      (advectionKernel w h (s.vel s.currentIndex) (s.den s.currentIndex) dt (98 / 100)) }

/-- `FluidSimulation.computeDivergence` (lines 288-293). -/
def FluidSimulation.computeDivergence (w h : ℕ) (s : FSState) : FSState :=
  { s with divg := divergencePass w h (s.vel s.currentIndex) }

/-- The iteration loop of `FluidSimulation.solvePressure`
(lines 295-308): each iteration renders `pressureShader` from
`pressureRenderTargets[pressureIndex]` into `[1 - pressureIndex]` and
flips the local index.  No zero-initialization occurs. -/
def FluidSimulation.solveLoop (w h : ℕ) (divg : Tex ℝ) :
    ℕ → (Bool → Tex ℝ) → Bool → (Bool → Tex ℝ)
  | 0, arr, _ => arr
  | n + 1, arr, idx =>
    FluidSimulation.solveLoop w h divg n
      (Function.update arr (!idx) (pressurePass w h (arr idx) divg)) (!idx)

/-- `FluidSimulation.solvePressure` with its default 20 iterations and
local `pressureIndex` starting at 0. -/
def FluidSimulation.solvePressure (w h : ℕ) (iterations : ℕ) (s : FSState) : FSState :=
  { s with press := FluidSimulation.solveLoop w h s.divg iterations s.press false }

/-- `FluidSimulation.subtractGradient` (lines 310-320): renders the
gradient-subtraction shader reading `pressureRenderTargets[0]`, writes
the velocity `[1 - currentIndex]` target and flips `currentIndex`. -/
def FluidSimulation.subtractGradient (w h : ℕ) (s : FSState) : FSState :=
  { s with
    vel := Function.update s.vel (!s.currentIndex)
      (gradientSubtractPass w h (s.vel s.currentIndex) (s.press false)),
    currentIndex := !s.currentIndex }

/-- `FluidSimulation.update` (lines 344-350): advect velocity, advect
density, compute divergence, solve pressure (20 iterations), subtract
gradient. -/
def FluidSimulation.update (w h : ℕ) (dt : ℝ) (s : FSState) : FSState :=
  FluidSimulation.subtractGradient w h
    (FluidSimulation.solvePressure w h 20
      (FluidSimulation.computeDivergence w h
        (FluidSimulation.advectDensity w h dt
          (FluidSimulation.advectVelocity w h dt s))))

/-- A reachable-shape state of `FluidSimulation` in which the pressure
targets hold a leftover constant field `1` from earlier frames while
velocity and density are zero. -/
def cexFS : FSState :=
  { vel := fun _ => fun _ _ => (0, 0), den := fun _ => fun _ _ => (0, 0, 0),
    press := fun _ => fun _ _ => 1, divg := fun _ _ => 0, currentIndex := false }

/-! ## part_007 `SimpleFluidEngine` (lines 713-947) -/

/-- The state of part_007 `SimpleFluidEngine`: the authoritative
density contents, the pending splat queue, and the display target. -/
structure SimpleState where
  density : Tex V3
  splats : List Splat
  display : Tex V3

/-- The post-construction state: the constructor clears the density
pair and the display target to black and the queue starts empty. -/
def Simple007.initState : SimpleState :=
  { density := fun _ _ => (0, 0, 0), splats := [], display := fun _ _ => (0, 0, 0) }

/-- part_007 `SimpleFluidEngine.reset` (lines 935-938): `clear()` (all
targets to black) and `this.splats = []`. -/
def Simple007.reset (_ : SimpleState) : SimpleState := Simple007.initState

/-- part_007 `SimpleFluidEngine.update` (lines 882-929): fade the
density by `0.985`, apply at most 5 queued splats (FIFO via `shift`),
then render the display shader from the resulting density. -/
def Simple007.update (w h : ℕ) (_dt : ℝ) (s : SimpleState) : SimpleState :=
  let faded := fadePass w h s.density (985 / 1000)
  let afterSplats := (Simple007.stepQueue s.splats).1.foldl
    (fun d sp => simpleSplatPass w h sp d) faded
  { density := afterSplats,
    splats := (Simple007.stepQueue s.splats).2,
    display := displaySimplePass w h afterSplats }

/-- A `SimpleFluidEngine` state with a uniform nonzero density (as left
by earlier splats) and an empty splat queue. -/
def cexSimple : SimpleState :=
  { density := fun _ _ => (1, 1, 1), splats := [], display := fun _ _ => (0, 0, 0) }

/-! ## part_007 `SmokeFluidEngine` (lines 12-657): construction and reset -/

/-- The state of `SmokeFluidEngine` relevant to reset: the field
targets, the elapsed time and the persistent smoke sources. -/
structure SmokeState where
  velocity : Tex V2
  density : Tex V3
  temperature : Tex ℝ
  pressure : Tex ℝ
  divergence : Tex ℝ
  vorticity : Tex ℝ
  display : Tex V3
  time : ℝ
  sources : List SmokeSource

/-- The post-construction state of `SmokeFluidEngine`: all targets
cleared to black, `time = 0`, and the three colored smoke vents
installed (part_007 lines 417-444). -/
def SmokeEngine.initState : SmokeState :=
  { velocity := fun _ _ => (0, 0), density := fun _ _ => (0, 0, 0),
    temperature := fun _ _ => 0, pressure := fun _ _ => 0,
    divergence := fun _ _ => 0, vorticity := fun _ _ => 0,
    display := fun _ _ => (0, 0, 0), time := 0, sources := initialSmokeSources }

/-- `SmokeFluidEngine.reset` (lines 637-640): `clear()` (every target
in the constructor's list, including the display buffer, is cleared to
black) and `this.time = 0`.  `smokeSources` is not modified. -/
def SmokeEngine.reset (s : SmokeState) : SmokeState :=
  { velocity := fun _ _ => (0, 0), density := fun _ _ => (0, 0, 0),
    temperature := fun _ _ => 0, pressure := fun _ _ => 0,
    divergence := fun _ _ => 0, vorticity := fun _ _ => 0,
    display := fun _ _ => (0, 0, 0), time := 0, sources := s.sources }

/-- The pressure produced by the projection step of
`SmokeFluidEngine.update` (part_007 lines 571-592): the divergence of
the current velocity is computed, the pressure read target is cleared
(`renderer.clear()` discards `oldPressure`), and 30 Jacobi iterations
of the same pressure shader run with a swap after each. -/
def SmokeEngine.solvedPressure (w h : ℕ) (vel : Tex V2) (_oldPressure : Tex ℝ) : Tex ℝ :=
  (fun q => pressurePass w h q (divergencePass w h vel))^[30] (fun _ _ => 0)

/-! ## Spec-side vorticity confinement (section 4.4), for comparison -/

/-- Rotation of a `vec2` by -90 degrees: `(g.x, g.y) ↦ (g.y, -g.x)`. -/
def rotMinus90 (g : V2) : V2 := (g.2, -g.1)

/-- Rotation of a `vec2` by +90 degrees: `(g.x, g.y) ↦ (-g.y, g.x)`. -/
def rotPlus90 (g : V2) : V2 := (-g.2, g.1)

/-- The central-difference gradient of `|curl|` sampled from a curl
texture: `0.5 * (|cRight| - |cLeft|, |cTop| - |cBottom|)`. -/
def gradAbsCurl (w h : ℕ) (curlF : Tex ℝ) (i j : ℤ) : V2 :=
  let u := centerUV w i
  let v := centerUV h j
  let cL := sample w h curlF (u - 1 / (w : ℝ)) v
  let cR := sample w h curlF (u + 1 / (w : ℝ)) v
  let cB := sample w h curlF u (v - 1 / (h : ℝ))
  let cT := sample w h curlF u (v + 1 / (h : ℝ))
  ((|cR| - |cL|) * (1 / 2), (|cT| - |cB|) * (1 / 2))

/-- The unscaled differences of `|curl|` along the two axes (the
gradient of `|curl|` without the central-difference `0.5` factor). -/
def gradAbsCurlRaw (w h : ℕ) (curlF : Tex ℝ) (i j : ℤ) : V2 :=
  let u := centerUV w i
  let v := centerUV h j
  let cL := sample w h curlF (u - 1 / (w : ℝ)) v
  let cR := sample w h curlF (u + 1 / (w : ℝ)) v
  let cB := sample w h curlF u (v - 1 / (h : ℝ))
  let cT := sample w h curlF u (v + 1 / (h : ℝ))
  (|cR| - |cL|, |cT| - |cB|)

/-- Modelled from the spec (section 4.4): per cell, the curl scalar
field is computed from velocity; the confinement force is the
normalized gradient of `|curl|` rotated 90 degrees, scaled by the
configured strength and the local curl magnitude; the velocity gains
`force * dt`.  The rotation sense is `rotMinus90` (the sense part_007
uses); no epsilon regularization appears in the spec formula. -/
def specConfinementVelocity (w h : ℕ) (vel : Tex V2) (strength dt : ℝ) : Tex V2 :=
  fun i j =>
    let c := curlPass w h vel
    let force := (strength * |sample w h c (centerUV w i) (centerUV h j)|) •
      glNormalize2 (rotMinus90 (gradAbsCurl w h c i j))
    sample w h vel (centerUV w i) (centerUV h j) + dt • force

/-- Modelled from the spec, as `specConfinementVelocity` but with the
opposite rotation sense (+90 degrees), since the spec does not fix the
sense of "rotated 90°". -/
def specConfinementVelocityPlus (w h : ℕ) (vel : Tex V2) (strength dt : ℝ) : Tex V2 :=
  fun i j =>
    let c := curlPass w h vel
    let force := (strength * |sample w h c (centerUV w i) (centerUV h j)|) •
      glNormalize2 (rotPlus90 (gradAbsCurl w h c i j))
    sample w h vel (centerUV w i) (centerUV h j) + dt • force

/-! ## Concrete velocity textures for the vorticity counterexamples -/

/-- A 4×4 velocity texture (y-component zero everywhere) whose curl
field at the stencil of cell (1,1) is `cC = 1`, `cL = 0`, `cR = 1`,
`cB = 0`, `cT = 1`: `x = -2` at texels (1,2) and (1,3), `x = 2` at
(2,0), zero elsewhere. -/
def cexVel6 : Tex V2 := fun i j =>
  (if (i = 1 ∧ j = 2) ∨ (i = 1 ∧ j = 3) then -2
   else if i = 2 ∧ j = 0 then 2 else 0, 0)

/-- A 4×4 velocity texture whose curl field at the stencil of cell
(1,1) is `cT = cL = 0` and `cB = cR = 0.00001`: `x = 0.00002` at
texels (1,0) and (2,0), zero elsewhere. -/
def cexVel7 : Tex V2 := fun i j =>
  (if (i = 1 ∧ j = 0) ∨ (i = 2 ∧ j = 0) then 2 / 100000 else 0, 0)

/-! ## Concrete splats for the queue-order counterexample -/

/-- First queued splat (red). -/
def spA : Splat := ⟨1 / 10, 0, 0, 0, 1, 0, 0, 1 / 20⟩

/-- Second queued splat (green). -/
def spB : Splat := ⟨2 / 10, 0, 0, 0, 0, 1, 0, 1 / 20⟩

/-- Third queued splat (blue). -/
def spC : Splat := ⟨3 / 10, 0, 0, 0, 0, 0, 1, 1 / 20⟩

/-! ## Sampling lemmas -/

theorem texelCenter_mul {n : ℕ} (hn : 0 < n) (i : ℤ) :
    centerUV n i * (n : ℝ) - 1 / 2 = (i : ℝ) := by
  have hne : (n : ℝ) ≠ 0 := Nat.cast_ne_zero.mpr hn.ne'
  field_simp [centerUV]
  ring

theorem sample_texelCenter {V : Type} [AddCommMonoid V] [Module ℝ V]
    (w h : ℕ) (hw : 0 < w) (hh : 0 < h) (F : Tex V) (i j : ℤ) :
    sample w h F (centerUV w i) (centerUV h j) = texelFetch w h F i j := by
  simp only [sample]
  rw [texelCenter_mul hw, texelCenter_mul hh]
  simp [Int.floor_intCast]

theorem centerUV_add {n : ℕ} (hn : 0 < n) (i : ℤ) :
    centerUV n i + 1 / (n : ℝ) = centerUV n (i + 1) := by
  have hne : (n : ℝ) ≠ 0 := Nat.cast_ne_zero.mpr hn.ne'
  simp only [centerUV]
  push_cast
  field_simp
  ring

theorem centerUV_sub {n : ℕ} (hn : 0 < n) (i : ℤ) :
    centerUV n i - 1 / (n : ℝ) = centerUV n (i - 1) := by
  have hne : (n : ℝ) ≠ 0 := Nat.cast_ne_zero.mpr hn.ne'
  simp only [centerUV]
  push_cast
  field_simp
  ring

theorem sample_left {V : Type} [AddCommMonoid V] [Module ℝ V]
    (w h : ℕ) (hw : 0 < w) (hh : 0 < h) (F : Tex V) (i j : ℤ) :
    sample w h F (centerUV w i - 1 / (w : ℝ)) (centerUV h j) =
      texelFetch w h F (i - 1) j := by
  rw [centerUV_sub hw, sample_texelCenter w h hw hh]

theorem sample_right {V : Type} [AddCommMonoid V] [Module ℝ V]
    (w h : ℕ) (hw : 0 < w) (hh : 0 < h) (F : Tex V) (i j : ℤ) :
    sample w h F (centerUV w i + 1 / (w : ℝ)) (centerUV h j) =
      texelFetch w h F (i + 1) j := by
  rw [centerUV_add hw, sample_texelCenter w h hw hh]

theorem sample_down {V : Type} [AddCommMonoid V] [Module ℝ V]
    (w h : ℕ) (hw : 0 < w) (hh : 0 < h) (F : Tex V) (i j : ℤ) :
    sample w h F (centerUV w i) (centerUV h j - 1 / (h : ℝ)) =
      texelFetch w h F i (j - 1) := by
  rw [centerUV_sub hh, sample_texelCenter w h hw hh]

theorem sample_up {V : Type} [AddCommMonoid V] [Module ℝ V]
    (w h : ℕ) (hw : 0 < w) (hh : 0 < h) (F : Tex V) (i j : ℤ) :
    sample w h F (centerUV w i) (centerUV h j + 1 / (h : ℝ)) =
      texelFetch w h F i (j + 1) := by
  rw [centerUV_add hh, sample_texelCenter w h hw hh]

theorem sample_const {V : Type} [AddCommMonoid V] [Module ℝ V]
    (w h : ℕ) (c : V) (u v : ℝ) :
    sample w h (fun _ _ => c) u v = c := by
  simp only [sample, texelFetch]
  module

theorem sample_add_const {V : Type} [AddCommMonoid V] [Module ℝ V]
    (w h : ℕ) (F : Tex V) (c : V) (u v : ℝ) :
    sample w h (fun i j => F i j + c) u v = sample w h F u v + c := by
  simp only [sample, texelFetch]
  module

/-! ## Constant-field behaviour of the kernels -/

theorem advectionKernel_const {V : Type} [AddCommMonoid V] [Module ℝ V]
    (w h : ℕ) (a : V2) (b : V) (dt k : ℝ) :
    advectionKernel w h (fun _ _ => a) (fun _ _ => b) dt k = fun _ _ => k • b := by
  funext i j
  simp [advectionKernel, sample_const]

theorem pressurePass_const (w h : ℕ) (p d : ℝ) :
    pressurePass w h (fun _ _ => p) (fun _ _ => d) =
      fun _ _ => (p + p + p + p - d) * (1 / 4) := by
  funext i j
  simp [pressurePass, sample_const]

theorem divergencePass_const (w h : ℕ) (a : V2) :
    divergencePass w h (fun _ _ => a) = fun _ _ => 0 := by
  funext i j
  simp [divergencePass, sample_const]

theorem gradientSubtractPass_const (w h : ℕ) (a : V2) (p : ℝ) :
    gradientSubtractPass w h (fun _ _ => a) (fun _ _ => p) = fun _ _ => a := by
  funext i j
  simp [gradientSubtractPass, sample_const]

theorem vorticityKernelFE_const (w h : ℕ) (a : V2) (uCurl dt : ℝ) :
    vorticityKernelFE w h (fun _ _ => a) uCurl dt = fun _ _ => a := by
  funext i j
  simp [vorticityKernelFE, sample_const]

theorem fadePass_const (w h : ℕ) (d : V3) (k : ℝ) :
    fadePass w h (fun _ _ => d) k = fun _ _ => k • d := by
  funext i j
  simp [fadePass, sample_const]

theorem displayPassFE_const (w h : ℕ) (d : V3) (b c : ℝ) :
    displayPassFE w h (fun _ _ => d) b c = fun _ _ =>
      (displayChannelFE d.1 b c, displayChannelFE d.2.1 b c,
       displayChannelFE d.2.2 b c) := by
  funext i j
  simp [displayPassFE, sample_const]

theorem pressureIterate_zero (w h : ℕ) (n : ℕ) :
    (fun p0 => pressurePass w h p0 (fun _ _ => (0 : ℝ)))^[n] (fun _ _ => 0) =
      fun _ _ => 0 := by
  induction n with
  | zero => simp
  | succ n ih =>
    rw [Function.iterate_succ_apply]
    have h0 : pressurePass w h (fun _ _ => (0 : ℝ)) (fun _ _ => 0) = fun _ _ => 0 := by
      rw [pressurePass_const]
      funext i j
      norm_num
    rw [h0, ih]

theorem solveLoop_ones (w h : ℕ) : ∀ (n : ℕ) (arr : Bool → Tex ℝ) (idx : Bool),
    (∀ b, arr b = fun _ _ => 1) →
    ∀ b, FluidSimulation.solveLoop w h (fun _ _ => 0) n arr idx b = fun _ _ => 1 := by
  intro n
  induction n with
  | zero =>
    intro arr idx harr b
    simpa [FluidSimulation.solveLoop] using harr b
  | succ n ih =>
    intro arr idx harr b
    simp only [FluidSimulation.solveLoop]
    apply ih
    intro b'
    by_cases hb : b' = !idx
    · subst hb
      rw [Function.update_same, harr idx, pressurePass_const]
      funext i j
      norm_num
    · rw [Function.update_noteq hb]
      exact harr b'

/-! ## Clamp and normalization lemmas -/

theorem clamp01_nonneg (x : ℝ) : 0 ≤ clamp01 x :=
  le_min zero_le_one (le_max_left 0 x)

theorem clamp01_le_one (x : ℝ) : clamp01 x ≤ 1 := min_le_left 1 (max 0 x)

theorem glLength2_pos_of_fst_pos {v : V2} (h : 0 < v.1) : 0 < glLength2 v :=
  Real.sqrt_pos.mpr (add_pos_of_pos_of_nonneg (pow_pos h 2) (sq_nonneg v.2))

theorem glLength2_smul {k : ℝ} (hk : 0 ≤ k) (v : V2) :
    glLength2 (k • v) = k * glLength2 v := by
  simp only [glLength2, Prod.smul_fst, Prod.smul_snd, smul_eq_mul, mul_pow]
  rw [← mul_add, Real.sqrt_mul (sq_nonneg k), Real.sqrt_sq hk]

theorem glNormalize2_smul {k : ℝ} (hk : 0 < k) (v : V2) :
    glNormalize2 (k • v) = glNormalize2 v := by
  simp only [glNormalize2, glLength2_smul hk.le, Prod.smul_fst, Prod.smul_snd,
    smul_eq_mul]
  rw [mul_div_mul_left _ _ hk.ne', mul_div_mul_left _ _ hk.ne']

theorem glLength2_pos_of_snd_pos {v : V2} (h : 0 < v.2) : 0 < glLength2 v :=
  Real.sqrt_pos.mpr (add_pos_of_nonneg_of_pos (sq_nonneg v.1) (pow_pos h 2))

theorem glNormalize2_snd_pos {v : V2} (h1 : 0 < v.1) (h2 : 0 < v.2) :
    0 < (glNormalize2 v).2 :=
  div_pos h2 (glLength2_pos_of_fst_pos h1)

theorem glNormalize2_snd_neg {v : V2} (h1 : 0 < v.1) (h2 : v.2 < 0) :
    (glNormalize2 v).2 < 0 :=
  div_neg_of_neg_of_pos h2 (glLength2_pos_of_fst_pos h1)

theorem glNormalize2_fst_pos {v : V2} (h1 : 0 < v.1) : 0 < (glNormalize2 v).1 :=
  div_pos h1 (glLength2_pos_of_fst_pos h1)

theorem glNormalize2_fst_neg {v : V2} (h1 : v.1 < 0) (h2 : 0 < v.2) :
    (glNormalize2 v).1 < 0 :=
  div_neg_of_neg_of_pos h1 (glLength2_pos_of_snd_pos h2)

theorem texelFetch_in_range {V : Type} (w h : ℕ) (F : Tex V) (i j : ℤ)
    (hi0 : 0 ≤ i) (hi1 : i ≤ (w : ℤ) - 1) (hj0 : 0 ≤ j) (hj1 : j ≤ (h : ℤ) - 1) :
    texelFetch w h F i j = F i j := by
  unfold texelFetch clampIdx
  rw [min_eq_right hi1, max_eq_right hi0, min_eq_right hj1, max_eq_right hj0]

/-! ## Queue lemmas -/

theorem drainPopAux_eq_reverse :
    ∀ (n : ℕ) (q : List Splat), q.length ≤ n → drainPopAux n q = q.reverse := by
  intro n
  induction n with
  | zero =>
    intro q hq
    cases q with
    | nil => rfl
    | cons a l => simp at hq
  | succ n ih =>
    intro q hq
    cases q with
    | nil => rfl
    | cons a l =>
      have hne : (a :: l) ≠ [] := by simp
      have hlen : (a :: l).dropLast.length ≤ n := by
        simp only [List.length_dropLast, List.length_cons] at *
        omega
      rw [drainPopAux, ih _ hlen]
      conv_rhs => rw [← List.dropLast_append_getLast hne]
      rw [List.reverse_append]
      rfl

theorem simpleTS_appliedOrder_reverse (q : List Splat) :
    SimpleTS.appliedOrder q = q.reverse :=
  drainPopAux_eq_reverse q.length q le_rfl

/-! ## `FluidEngine.addSplat` leaves the display target alone, so the
random splats of `reset` do too. -/

theorem addRandomSplats_display (w h : ℕ) :
    ∀ (ps : List SplatParams) (s : FEState),
      (FluidEngine.addRandomSplats w h ps s).display = s.display := by
  intro ps
  induction ps with
  | nil => intro s; rfl
  | cons p ps ih =>
    intro s
    have hstep : FluidEngine.addRandomSplats w h (p :: ps) s =
        FluidEngine.addRandomSplats w h ps
          (FluidEngine.addSplat w h p.x p.y p.dx p.dy (p.r, p.g, p.b) (1 / 10) s) := rfl
    rw [hstep, ih]
    rfl

/-! ## Claim theorems -/

/-- Claim C1 (confirmed): for every kernel pass issued during
`FluidEngine.update` — advection, vorticity (when enabled), divergence,
the pressure Jacobi iterations, gradient subtraction, display — and for
every initial read/write assignment, the destination buffer of a pass
is never among the buffers it samples, and each double-buffered
quantity (velocity, density, pressure) is swapped exactly once
immediately after each pass that writes it, and nowhere else. -/
theorem c1_update_buffer_discipline :
    ∀ (vortOn vr dr cr : Bool),
      noSelfRW (updateTrace vortOn ⟨vr, dr, cr⟩) = true ∧
      disciplined (updateTrace vortOn ⟨vr, dr, cr⟩) = true := by
  decide

/-- Claim C3 counterexample: `src/src/engine/SimpleFluidEngine.ts`
(lines 167-184) drains its whole queue inside one `update` via `pop()`:
splats queued in order A, B, C are applied in order C, B, A rather than
arrival order, and a queue of six splats is applied entirely within a
single frame, exceeding the claimed per-frame bound of at most 5. -/
theorem c3_splat_queue_counterexample :
    SimpleTS.appliedOrder [spA, spB, spC] = [spC, spB, spA] ∧
    SimpleTS.appliedOrder [spA, spB, spC] ≠ [spA, spB, spC] ∧
    (SimpleTS.appliedOrder [spA, spB, spC, spA, spB, spC]).length = 6 ∧
    ¬ (SimpleTS.appliedOrder [spA, spB, spC, spA, spB, spC]).length ≤ 5 := by
  refine ⟨?_, ?_, ?_, ?_⟩ <;>
    simp [simpleTS_appliedOrder_reverse, spA, spB, spC]

/-- Claim C3 (amended): part_007's `SimpleFluidEngine` dequeues at most
5 splats per frame from the front (`shift`), so over any number of
frames the applied splats are exactly a prefix of the queue in arrival
(FIFO) order, the remainder stays queued, none is dropped, and each
frame applies at most 5; `OceanFluidEngine` behaves the same with cap 3.
`src/src/engine/SimpleFluidEngine.ts`, however, applies the *entire*
queue within one frame in reverse (LIFO) order via `pop()`. -/
theorem c3_splat_queue_amended :
    (∀ (n : ℕ) (q : List Splat),
        (Simple007.runFrames n q).1.flatten ++ (Simple007.runFrames n q).2 = q ∧
        List.Forall (fun a => a.length ≤ 5) (Simple007.runFrames n q).1) ∧
    (∀ q : List Splat, SimpleTS.appliedOrder q = q.reverse) ∧
    (∀ q : List Wave,
        (OceanEngine.stepWaves q).1 ++ (OceanEngine.stepWaves q).2 = q ∧
        (OceanEngine.stepWaves q).1.length ≤ 3) := by
  refine ⟨?_, simpleTS_appliedOrder_reverse, ?_⟩
  · intro n
    induction n with
    | zero =>
      intro q
      exact ⟨by simp [Simple007.runFrames], by simp [Simple007.runFrames, List.Forall]⟩
    | succ n ih =>
      intro q
      constructor
      · simp only [Simple007.runFrames, List.flatten_cons, List.append_assoc]
        rw [(ih (Simple007.stepQueue q).2).1]
        exact List.take_append_drop 5 q
      · simp only [Simple007.runFrames, List.forall_cons]
        refine ⟨?_, (ih (Simple007.stepQueue q).2).2⟩
        simp [Simple007.stepQueue]
  · intro q
    constructor
    · exact List.take_append_drop 3 q
    · simp [OceanEngine.stepWaves]

/-- Claim C4 counterexample: `SmokeFluidEngine.reset` (part_007
lines 637-640) applied to the post-construction state clears the field
targets and the clock but leaves the three continuous smoke sources
registered — the claim's "clears ... continuous sources" is false. -/
theorem c4_reset_counterexample :
    (SmokeEngine.reset SmokeEngine.initState).sources = initialSmokeSources ∧
    initialSmokeSources ≠ [] :=
  ⟨rfl, by simp [initialSmokeSources]⟩

/-- Claim C4 (amended): `reset()` zeroes the simulation field targets;
part_007's `SimpleFluidEngine.reset` also empties the splat queue and
restores exactly the post-construction state (so its display matches
construction); but `SmokeFluidEngine.reset` keeps its continuous smoke
sources registered, and `FluidEngine.reset` never clears the display
target (and then applies five fresh random splats), so those engines do
not return to the post-construction state. -/
theorem c4_reset_amended :
    (∀ s : SimpleState, Simple007.reset s = Simple007.initState) ∧
    (∀ s : SmokeState,
        (SmokeEngine.reset s).velocity = (fun _ _ => (0, 0)) ∧
        (SmokeEngine.reset s).density = (fun _ _ => (0, 0, 0)) ∧
        (SmokeEngine.reset s).temperature = (fun _ _ => 0) ∧
        (SmokeEngine.reset s).pressure = (fun _ _ => 0) ∧
        (SmokeEngine.reset s).display = (fun _ _ => (0, 0, 0)) ∧
        (SmokeEngine.reset s).time = 0 ∧
        (SmokeEngine.reset s).sources = s.sources) ∧
    (∀ (w h : ℕ) (ps : List SplatParams) (s : FEState),
        (FluidEngine.reset w h ps s).display = s.display) := by
  refine ⟨fun s => rfl, fun s => ⟨rfl, rfl, rfl, rfl, rfl, rfl, rfl⟩, ?_⟩
  intro w h ps s
  unfold FluidEngine.reset
  rw [addRandomSplats_display]
  rfl

/-- Claim C9 (confirmed): `FluidEngine.addSplat` applies the splat
immediately rather than queueing it: before returning it has
additively written the impulse into the velocity field and the color
into the density field (each as one pass over the read texture followed
by exactly one swap of that pair), and the pressure, divergence,
vorticity and display targets are untouched. -/
theorem c9_addsplat_immediate :
    ∀ (w h : ℕ) (x y dx dy radius : ℝ) (color : V3) (s : FEState),
      ((FluidEngine.addSplat w h x y dx dy color radius s).pressure = s.pressure ∧
       (FluidEngine.addSplat w h x y dx dy color radius s).divergence = s.divergence ∧
       (FluidEngine.addSplat w h x y dx dy color radius s).vorticity = s.vorticity ∧
       (FluidEngine.addSplat w h x y dx dy color radius s).display = s.display) ∧
      (∀ i j : ℤ, (FluidEngine.addSplat w h x y dx dy color radius s).velocity i j =
          sample w h s.velocity (centerUV w i) (centerUV h j)
            + feSplatFalloff (centerUV w i, centerUV h j) (x, y) ((w : ℝ) / (h : ℝ))
                radius • ((dx, dy) : V2)) ∧
      (∀ i j : ℤ, (FluidEngine.addSplat w h x y dx dy color radius s).density i j =
          sample w h s.density (centerUV w i) (centerUV h j)
            + feSplatContribution (centerUV w i, centerUV h j) (x, y) ((w : ℝ) / (h : ℝ))
                radius color) ∧
      (∀ (F : Tex V2) (c : V2) (i j : ℤ),
          splatVelPass w h x y dx dy radius (fun a b => F a b + c) i j =
            splatVelPass w h x y dx dy radius F i j + c) ∧
      (∀ (vr dr cr : Bool),
          noSelfRW (addSplatTrace ⟨vr, dr, cr⟩) = true ∧
          disciplined (addSplatTrace ⟨vr, dr, cr⟩) = true ∧
          passCount (addSplatTrace ⟨vr, dr, cr⟩) = 2) := by
  intro w h x y dx dy radius color s
  refine ⟨⟨rfl, rfl, rfl, rfl⟩, fun i j => rfl, fun i j => rfl, ?_, by decide⟩
  intro F c i j
  simp only [splatVelPass, sample_add_const]
  abel

/-- Claim C10 (confirmed): for every input density texture and every
brightness/contrast value, each color channel written by the display
passes (part_009's `displayShader`, and the part_007
`SimpleFluidEngine` display shader) lies in `[0, 1]` — the value is
clamped after the brightness/contrast (respectively gamma) adjustment. -/
theorem c10_display_clamped :
    ∀ (w h : ℕ) (den : Tex V3) (b c : ℝ) (i j : ℤ),
      (0 ≤ (displayPassFE w h den b c i j).1 ∧ (displayPassFE w h den b c i j).1 ≤ 1) ∧
      (0 ≤ (displayPassFE w h den b c i j).2.1 ∧
        (displayPassFE w h den b c i j).2.1 ≤ 1) ∧
      (0 ≤ (displayPassFE w h den b c i j).2.2 ∧
        (displayPassFE w h den b c i j).2.2 ≤ 1) ∧
      (0 ≤ (displaySimplePass w h den i j).1 ∧ (displaySimplePass w h den i j).1 ≤ 1) ∧
      (0 ≤ (displaySimplePass w h den i j).2.1 ∧
        (displaySimplePass w h den i j).2.1 ≤ 1) ∧
      (0 ≤ (displaySimplePass w h den i j).2.2 ∧
        (displaySimplePass w h den i j).2.2 ≤ 1) := by
  intro w h den b c i j
  simp only [displayPassFE, displaySimplePass, displayChannelFE, displayChannelSimple]
  exact ⟨⟨clamp01_nonneg _, clamp01_le_one _⟩, ⟨clamp01_nonneg _, clamp01_le_one _⟩,
    ⟨clamp01_nonneg _, clamp01_le_one _⟩, ⟨clamp01_nonneg _, clamp01_le_one _⟩,
    ⟨clamp01_nonneg _, clamp01_le_one _⟩, ⟨clamp01_nonneg _, clamp01_le_one _⟩⟩

/-- Claim C7 (amended): in `vorticityShader` (vorticity.ts) the vector
being normalized has componentwise *absolute values* plus the epsilon,
so its normalization denominator `glLength2 (direction + 0.00001)` is
strictly positive for every velocity texture and every cell — no
division by zero occurs there.  In part_007's vorticity shader the
regularized vector components are differences of absolute values and
the same epsilon does not prevent a zero denominator (see the
counterexample). -/
theorem c7_epsilon_guard_amended :
    ∀ (w h : ℕ) (vel : Tex V2) (i j : ℤ),
      0 < glLength2 (feDirection w h vel i j + vEps) := by
  intro w h vel i j
  apply glLength2_pos_of_fst_pos
  rw [Prod.fst_add]
  have h0 : 0 ≤ (feDirection w h vel i j).1 := by
    simp only [feDirection]
    exact abs_nonneg _
  have hε : (0 : ℝ) < vEps.1 := by norm_num [vEps]
  linarith

/-- Claim C7 counterexample: for the velocity texture `cexVel7` the
curl field around cell (1,1) has `|cTop| - |cBottom| = -0.00001` and
`|cLeft| - |cRight| = -0.00001`, so `force + 0.00001 = (0, 0)` in
part_007's vorticity shader and the normalization denominator is
exactly zero — the claimed "denominator is never zero for any velocity
field input" is false. -/
theorem c7_epsilon_guard_counterexample :
    glLength2 (smokeForce0 4 4 (curlPass 4 4 cexVel7) 1 1 + vEps) = 0 := by
  have h4 : (0 : ℕ) < 4 := by norm_num
  have hcurl : ∀ a b : ℤ, curlPass 4 4 cexVel7 a b =
      ((texelFetch 4 4 cexVel7 (a + 1) b).2 - (texelFetch 4 4 cexVel7 (a - 1) b).2
        - ((texelFetch 4 4 cexVel7 a (b + 1)).1 - (texelFetch 4 4 cexVel7 a (b - 1)).1))
        * (1 / 2) := by
    intro a b
    simp only [curlPass]
    rw [sample_left 4 4 h4 h4, sample_right 4 4 h4 h4, sample_down 4 4 h4 h4,
      sample_up 4 4 h4 h4]
  have c12 : curlPass 4 4 cexVel7 1 2 = 0 := by
    rw [hcurl]
    norm_num [texelFetch, clampIdx, cexVel7, min_def, max_def]
  have c10 : curlPass 4 4 cexVel7 1 0 = 1 / 100000 := by
    rw [hcurl]
    norm_num [texelFetch, clampIdx, cexVel7, min_def, max_def]
  have c01 : curlPass 4 4 cexVel7 0 1 = 0 := by
    rw [hcurl]
    norm_num [texelFetch, clampIdx, cexVel7, min_def, max_def]
  have c21 : curlPass 4 4 cexVel7 2 1 = 1 / 100000 := by
    rw [hcurl]
    norm_num [texelFetch, clampIdx, cexVel7, min_def, max_def]
  have hforce : smokeForce0 4 4 (curlPass 4 4 cexVel7) 1 1 + vEps = ((0 : ℝ), (0 : ℝ)) := by
    simp only [smokeForce0]
    rw [sample_left 4 4 h4 h4, sample_right 4 4 h4 h4, sample_down 4 4 h4 h4,
      sample_up 4 4 h4 h4]
    rw [texelFetch_in_range 4 4 _ _ _ (by norm_num) (by norm_num) (by norm_num) (by norm_num),
      texelFetch_in_range 4 4 _ _ _ (by norm_num) (by norm_num) (by norm_num) (by norm_num),
      texelFetch_in_range 4 4 _ _ _ (by norm_num) (by norm_num) (by norm_num) (by norm_num),
      texelFetch_in_range 4 4 _ _ _ (by norm_num) (by norm_num) (by norm_num) (by norm_num)]
    norm_num [c12, c10, c01, c21, vEps, Prod.ext_iff]
    rw [abs_of_nonneg (by norm_num : (0 : ℝ) ≤ 1 / 100000)]
    norm_num
  rw [hforce]
  simp [glLength2]

/-- Claim C5 counterexample: at `p - center = (1, 0)`, aspect 1,
radius `1/2`, magnitude `(1, 0, 0)`, the `splatShader` contribution is
`exp(-2) • (1,0,0)` (the exponent divides by the radius), which differs
from the claimed `exp(-|p|²/radius²) * magnitude = exp(-4) • (1,0,0)`;
and at `p - center = (1, 0)`, radius 1, aspect ratio 2, the part_007
`addSource` contribution `exp(-1) • (1,0,0)` carries no aspect
correction and differs from the claimed aspect-corrected
`exp(-4) • (1,0,0)`. -/
theorem c5_splat_formula_counterexample :
    feSplatContribution (1, 0) (0, 0) 1 (1 / 2) (1, 0, 0) ≠
      specSplatContribution (1, 0) (0, 0) 1 (1 / 2) (1, 0, 0) ∧
    addSourceContribution (1, 0) (0, 0) 1 1 (1, 0, 0) ≠
      specSplatContribution (1, 0) (0, 0) 2 1 (1, 0, 0) := by
  constructor
  · intro hEq
    have h1 := congrArg Prod.fst hEq
    simp only [feSplatContribution, feSplatFalloff, specSplatContribution,
      Prod.smul_fst, smul_eq_mul] at h1
    norm_num [Real.exp_eq_exp] at h1
  · intro hEq
    have h1 := congrArg Prod.fst hEq
    simp only [addSourceContribution, specSplatContribution, Prod.smul_fst,
      smul_eq_mul] at h1
    norm_num [Real.exp_eq_exp] at h1

/-- Claim C5 (amended): every splat/source kernel adds its contribution
to the sampled existing value (the passes commute with adding a
constant to the target), and the falloff factor is strictly positive;
but the contribution formulas differ from the claimed one:
`splatShader` divides the squared distance by `radius` (not `radius²`)
with only the x-component aspect-corrected, while the part_007
`addSource` and simple-splat kernels divide by `radius²` with no aspect
correction. -/
theorem c5_splat_formula_amended :
    (∀ (w h : ℕ) (x y dx dy radius : ℝ) (F : Tex V2) (c : V2) (i j : ℤ),
        splatVelPass w h x y dx dy radius (fun a b => F a b + c) i j =
          splatVelPass w h x y dx dy radius F i j + c) ∧
    (∀ (w h : ℕ) (px py radius intensity : ℝ) (color : V3) (F : Tex V3) (c : V3)
        (i j : ℤ),
        addSourcePass w h px py radius intensity color (fun a b => F a b + c) i j =
          addSourcePass w h px py radius intensity color F i j + c) ∧
    (∀ (w h : ℕ) (sp : Splat) (F : Tex V3) (c : V3) (i j : ℤ),
        simpleSplatPass w h sp (fun a b => F a b + c) i j =
          simpleSplatPass w h sp F i j + c) ∧
    (∀ (p center : V2) (aspect radius : ℝ), 0 < feSplatFalloff p center aspect radius) := by
  refine ⟨?_, ?_, ?_, ?_⟩
  · intro w h x y dx dy radius F c i j
    simp only [splatVelPass, sample_add_const]
    abel
  · intro w h px py radius intensity color F c i j
    simp only [addSourcePass, sample_add_const]
    abel
  · intro w h sp F c i j
    simp only [simpleSplatPass, sample_add_const]
    abel
  · intro p center aspect radius
    exact Real.exp_pos _

/-- Claim C2 (amended): in `FluidEngine.update` the pressure solve is a
Jacobi iteration of `pressureShader` — `(pL + pR + pB + pT - div) * 0.25`
with a read/write swap after every iteration — run exactly 20 times
(within the claimed 20-30 range) on a pressure field cleared to zero at
the start of the frame's solve: the resulting pressure is the 20-fold
iterate from the zero field and is independent of the pressure left by
previous frames.  (`SmokeFluidEngine` does the same with 30 iterations;
`FluidSimulation` of part_005 does not zero its pressure — see the
counterexample.) -/
theorem c2_pressure_solve_amended :
    ∀ (w h : ℕ) (cfg : FEConfig) (dt : ℝ) (s : FEState) (p0 : Tex ℝ),
      ((FluidEngine.update w h cfg dt { s with pressure := p0 }).pressure =
        (FluidEngine.update w h cfg dt s).pressure ∧
      (FluidEngine.update w h cfg dt s).pressure =
        (fun q => pressurePass w h q (FluidEngine.frameDivergence w h cfg dt s))^[20]
          (fun _ _ => 0)) ∧
      (∀ (vel : Tex V2) (p1 p2 : Tex ℝ),
        SmokeEngine.solvedPressure w h vel p1 = SmokeEngine.solvedPressure w h vel p2 ∧
        SmokeEngine.solvedPressure w h vel p1 =
          (fun q => pressurePass w h q (divergencePass w h vel))^[30] (fun _ _ => 0)) := by
  intro w h cfg dt s p0
  exact ⟨⟨rfl, rfl⟩, fun vel p1 p2 => ⟨rfl, rfl⟩⟩

/-- Claim C2 counterexample: `FluidSimulation.update` (part_005) never
zeroes the pressure targets.  Starting from zero velocity and density
but a leftover constant pressure of 1 (state `cexFS`), one update
leaves the pressure read by `subtractGradient` equal to 1 at cell
(1,1), although the frame's divergence is 0 and a Jacobi solve from a
zero-initialized pressure field (as the claim requires) would yield 0
there. -/
theorem c2_warm_start_counterexample :
    ((FluidSimulation.update 4 4 (16 / 1000) cexFS).press false) 1 1 = 1 ∧
    (FluidSimulation.update 4 4 (16 / 1000) cexFS).divg 1 1 = 0 ∧
    ((fun q => pressurePass 4 4 q (fun _ _ => (0 : ℝ)))^[20] (fun _ _ => 0)) 1 1 = 0 ∧
    (1 : ℝ) ≠ 0 := by
  have hzV : advectionKernel 4 4 (fun _ _ => ((0 : ℝ), (0 : ℝ)))
      (fun _ _ => ((0 : ℝ), (0 : ℝ))) (16 / 1000) (99 / 100) =
      fun _ _ => ((0 : ℝ), (0 : ℝ)) := by
    rw [advectionKernel_const]
    funext i j
    simp
  have hvel : Function.update (fun _ : Bool => fun _ _ : ℤ => ((0 : ℝ), (0 : ℝ))) true
      (advectionKernel 4 4 (fun _ _ => ((0 : ℝ), (0 : ℝ)))
        (fun _ _ => ((0 : ℝ), (0 : ℝ))) (16 / 1000) (99 / 100)) true =
      fun _ _ => ((0 : ℝ), (0 : ℝ)) := by
    rw [Function.update_same, hzV]
  have hpress : (FluidSimulation.update 4 4 (16 / 1000) cexFS).press =
      FluidSimulation.solveLoop 4 4
        (divergencePass 4 4
          (Function.update (fun _ : Bool => fun _ _ : ℤ => ((0 : ℝ), (0 : ℝ))) true
            (advectionKernel 4 4 (fun _ _ => ((0 : ℝ), (0 : ℝ)))
              (fun _ _ => ((0 : ℝ), (0 : ℝ))) (16 / 1000) (99 / 100)) true))
        20 (fun _ => fun _ _ => (1 : ℝ)) false := rfl
  have hdiv0 : divergencePass 4 4
      (Function.update (fun _ : Bool => fun _ _ : ℤ => ((0 : ℝ), (0 : ℝ))) true
        (advectionKernel 4 4 (fun _ _ => ((0 : ℝ), (0 : ℝ)))
          (fun _ _ => ((0 : ℝ), (0 : ℝ))) (16 / 1000) (99 / 100)) true) =
      fun _ _ => (0 : ℝ) := by
    rw [hvel, divergencePass_const]
  have hdivg : (FluidSimulation.update 4 4 (16 / 1000) cexFS).divg =
      divergencePass 4 4
        (Function.update (fun _ : Bool => fun _ _ : ℤ => ((0 : ℝ), (0 : ℝ))) true
          (advectionKernel 4 4 (fun _ _ => ((0 : ℝ), (0 : ℝ)))
            (fun _ _ => ((0 : ℝ), (0 : ℝ))) (16 / 1000) (99 / 100)) true) := rfl
  refine ⟨?_, ?_, ?_, by norm_num⟩
  · rw [hpress, hdiv0]
    rw [solveLoop_ones 4 4 20 (fun _ => fun _ _ => (1 : ℝ)) false (fun b => rfl) false]
  · rw [hdivg, hdiv0]
  · rw [pressureIterate_zero]

/-- Claim C8 counterexample: with no pending splats, a `dt = 0` call to
part_007's `SimpleFluidEngine.update` on a 4×4 grid still multiplies
the density by the fade factor `0.985` (the fade pass runs regardless
of `dt`), so a uniform density 1 becomes `0.985 ≠ 1`: the fields are
*not* left unchanged. -/
theorem c8_zero_dt_counterexample :
    ((Simple007.update 4 4 0 cexSimple).density 0 0).1 ≠ (cexSimple.density 0 0).1 := by
  have hupd : (Simple007.update 4 4 0 cexSimple).density =
      fadePass 4 4 (fun _ _ => ((1 : ℝ), (1 : ℝ), (1 : ℝ))) (985 / 1000) := rfl
  rw [hupd, fadePass_const]
  norm_num [cexSimple]

/-- Claim C8 (amended): a `dt = 0` update is the identity only on the
all-zero fields: `FluidEngine.update` with its default configuration
and `dt = 0` maps the all-zero state to itself (for any grid size,
including 4×4); in general a `dt = 0` update still rescales nonzero
fields by the dissipation/fade factors (see the counterexample, where
part_007's `SimpleFluidEngine` multiplies a nonzero density by
`0.985`). -/
theorem c8_zero_dt_amended :
    ∀ w h : ℕ, FluidEngine.update w h FEConfig.default 0 FEState.zero = FEState.zero := by
  intro w h
  have hadv : FluidEngine.advectedVelocity w h FEConfig.default 0 FEState.zero =
      fun _ _ => ((0 : ℝ), (0 : ℝ)) := by
    unfold FluidEngine.advectedVelocity
    have : FEState.zero.velocity = fun _ _ : ℤ => ((0 : ℝ), (0 : ℝ)) := rfl
    rw [this, advectionKernel_const]
    funext i j
    simp
  have hvf : FluidEngine.velocityAfterForces w h FEConfig.default 0 FEState.zero =
      fun _ _ => ((0 : ℝ), (0 : ℝ)) := by
    unfold FluidEngine.velocityAfterForces
    rw [if_pos (by norm_num [FEConfig.default] : (0 : ℝ) < FEConfig.default.vorticity)]
    rw [hadv, vorticityKernelFE_const]
  have hdiv : FluidEngine.frameDivergence w h FEConfig.default 0 FEState.zero =
      fun _ _ => (0 : ℝ) := by
    unfold FluidEngine.frameDivergence
    rw [hvf, divergencePass_const]
  have hp : FluidEngine.solvedPressure w h FEConfig.default 0 FEState.zero =
      fun _ _ => (0 : ℝ) := by
    unfold FluidEngine.solvedPressure
    rw [hdiv, pressureIterate_zero]
  have hden : FluidEngine.advectedDensity w h FEConfig.default 0 FEState.zero =
      fun _ _ => ((0 : ℝ), (0 : ℝ), (0 : ℝ)) := by
    unfold FluidEngine.advectedDensity
    have : FEState.zero.density = fun _ _ : ℤ => ((0 : ℝ), (0 : ℝ), (0 : ℝ)) := rfl
    rw [this, hadv, advectionKernel_const]
    funext i j
    simp
  refine FEState.ext ?_ ?_ ?_ ?_ ?_ ?_
  · show gradientSubtractPass w h (FluidEngine.velocityAfterForces w h FEConfig.default 0
      FEState.zero) (FluidEngine.solvedPressure w h FEConfig.default 0 FEState.zero) =
      FEState.zero.velocity
    rw [hvf, hp, gradientSubtractPass_const]
    rfl
  · show FluidEngine.advectedDensity w h FEConfig.default 0 FEState.zero =
      FEState.zero.density
    rw [hden]
    rfl
  · exact hp
  · exact hdiv
  · rfl
  · show displayPassFE w h (FluidEngine.advectedDensity w h FEConfig.default 0 FEState.zero)
      FEConfig.default.brightness FEConfig.default.contrast = FEState.zero.display
    rw [hden, displayPassFE_const]
    funext i j
    norm_num [displayChannelFE, clamp01, FEConfig.default, FEState.zero]

/-- The pre-normalization vector of part_007's vorticity shader is the
-90°-rotated (unscaled) difference vector of `|curl|`. -/
theorem smokeForce0_eq_rot (w h : ℕ) (curlF : Tex ℝ) (i j : ℤ) :
    smokeForce0 w h curlF i j = rotMinus90 (gradAbsCurlRaw w h curlF i j) := by
  simp only [smokeForce0, rotMinus90, gradAbsCurlRaw, Prod.mk.injEq]
  exact ⟨trivial, by ring⟩

/-- Claim C6 (amended): the per-cell curl is computed exactly as the
claim states, `0.5 * ((vxRight.y - vxLeft.y) - (vyTop.x - vyBottom.x))`,
in part_007's curl shader (and the same expression appears inline in
vorticity.ts).  In part_007's confinement shader the force added as
`force * dt` is `strength * (signed center curl)` times the
normalization of the 90°-rotated difference vector of `|curl|` *plus
the epsilon* — i.e. the claimed rotated-gradient structure holds there
up to the epsilon regularization and up to using the signed curl rather
than its magnitude (normalization makes the central-difference 0.5
factor immaterial, last conjunct).  In vorticity.ts the direction is
instead a vector of componentwise absolute values, which is not a
rotated gradient of `|curl|` (see the counterexample). -/
theorem c6_vorticity_amended :
    (∀ (w h : ℕ) (vel : Tex V2) (i j : ℤ),
        curlPass w h vel i j =
          ((sample w h vel (centerUV w i + 1 / (w : ℝ)) (centerUV h j)).2
            - (sample w h vel (centerUV w i - 1 / (w : ℝ)) (centerUV h j)).2
            - ((sample w h vel (centerUV w i) (centerUV h j + 1 / (h : ℝ))).1
               - (sample w h vel (centerUV w i) (centerUV h j - 1 / (h : ℝ))).1))
            * (1 / 2)) ∧
    (∀ (w h : ℕ) (vel : Tex V2) (curlF : Tex ℝ) (strength dt : ℝ) (i j : ℤ),
        smokeVorticityKernel w h vel curlF strength dt i j =
          sample w h vel (centerUV w i) (centerUV h j)
            + dt • ((strength * sample w h curlF (centerUV w i) (centerUV h j)) •
                glNormalize2 (rotMinus90 (gradAbsCurlRaw w h curlF i j) + vEps))) ∧
    (∀ (w h : ℕ) (curlF : Tex ℝ) (i j : ℤ),
        smokeForce0 w h curlF i j = rotMinus90 (gradAbsCurlRaw w h curlF i j)) ∧
    (∀ (k : ℝ) (v : V2), 0 < k → glNormalize2 (k • v) = glNormalize2 v) := by
  refine ⟨fun w h vel i j => rfl, ?_, smokeForce0_eq_rot, fun k v hk => glNormalize2_smul hk v⟩
  intro w h vel curlF strength dt i j
  simp only [smokeVorticityKernel]
  rw [smokeForce0_eq_rot]

/-- Witness for the hypothesis-bearing conjunct of
`c6_vorticity_amended`: normalization is invariant under the positive
scaling `2` of the vector `(3, 4)`. -/
theorem c6_vorticity_amended_witness :
    glNormalize2 ((2 : ℝ) • (((3 : ℝ), (4 : ℝ)) : V2)) =
      glNormalize2 (((3 : ℝ), (4 : ℝ)) : V2) :=
  c6_vorticity_amended.2.2.2 2 ((3 : ℝ), (4 : ℝ)) (by norm_num)

/-- Claim C6 counterexample: on the 4×4 velocity texture `cexVel6`, at
cell (1,1) the `vorticityShader` of vorticity.ts adds a force whose
components are both strictly positive (its direction components are
absolute values, hence nonnegative), while the spec's confinement force
— the normalized gradient of `|curl|` rotated 90°, scaled by strength
and `|curl|` — has a strictly negative y-component (rotating by -90°)
or a strictly negative x-component (rotating by +90°) there; the
updated velocity differs from the spec's under either rotation sense. -/
theorem c6_vorticity_counterexample :
    vorticityKernelFE 4 4 cexVel6 30 (16 / 1000) 1 1 ≠
      specConfinementVelocity 4 4 cexVel6 30 (16 / 1000) 1 1 ∧
    vorticityKernelFE 4 4 cexVel6 30 (16 / 1000) 1 1 ≠
      specConfinementVelocityPlus 4 4 cexVel6 30 (16 / 1000) 1 1 := by
  have h4 : (0 : ℕ) < 4 := by norm_num
  have hcurl : ∀ a b : ℤ, curlPass 4 4 cexVel6 a b =
      ((texelFetch 4 4 cexVel6 (a + 1) b).2 - (texelFetch 4 4 cexVel6 (a - 1) b).2
        - ((texelFetch 4 4 cexVel6 a (b + 1)).1 - (texelFetch 4 4 cexVel6 a (b - 1)).1))
        * (1 / 2) := by
    intro a b
    simp only [curlPass]
    rw [sample_left 4 4 h4 h4, sample_right 4 4 h4 h4, sample_down 4 4 h4 h4,
      sample_up 4 4 h4 h4]
  have c21 : curlPass 4 4 cexVel6 2 1 = 1 := by
    rw [hcurl]
    norm_num [texelFetch, clampIdx, cexVel6, min_def, max_def]
  have c01 : curlPass 4 4 cexVel6 0 1 = 0 := by
    rw [hcurl]
    norm_num [texelFetch, clampIdx, cexVel6, min_def, max_def]
  have c12 : curlPass 4 4 cexVel6 1 2 = 1 := by
    rw [hcurl]
    norm_num [texelFetch, clampIdx, cexVel6, min_def, max_def]
  have c10 : curlPass 4 4 cexVel6 1 0 = 0 := by
    rw [hcurl]
    norm_num [texelFetch, clampIdx, cexVel6, min_def, max_def]
  have c11 : curlPass 4 4 cexVel6 1 1 = 1 := by
    rw [hcurl]
    norm_num [texelFetch, clampIdx, cexVel6, min_def, max_def]
  have hKern : vorticityKernelFE 4 4 cexVel6 30 (16 / 1000) 1 1 =
      ((0 : ℝ), (0 : ℝ)) + (16 / 1000 : ℝ) •
        (((30 : ℝ) * 1) • glNormalize2 (((1 : ℝ), (0 : ℝ)) + vEps)) := by
    simp only [vorticityKernelFE, feDirection]
    rw [sample_left 4 4 h4 h4, sample_right 4 4 h4 h4, sample_down 4 4 h4 h4,
      sample_up 4 4 h4 h4, sample_texelCenter 4 4 h4 h4]
    norm_num [texelFetch, clampIdx, cexVel6, min_def, max_def]
  have hSpec : specConfinementVelocity 4 4 cexVel6 30 (16 / 1000) 1 1 =
      ((0 : ℝ), (0 : ℝ)) + (16 / 1000 : ℝ) •
        (((30 : ℝ) * 1) • glNormalize2 (rotMinus90 ((1 / 2 : ℝ), (1 / 2 : ℝ)))) := by
    simp only [specConfinementVelocity, gradAbsCurl]
    rw [sample_left 4 4 h4 h4, sample_right 4 4 h4 h4, sample_down 4 4 h4 h4,
      sample_up 4 4 h4 h4, sample_texelCenter 4 4 h4 h4, sample_texelCenter 4 4 h4 h4]
    rw [texelFetch_in_range 4 4 _ _ _ (by norm_num) (by norm_num) (by norm_num)
        (by norm_num),
      texelFetch_in_range 4 4 _ _ _ (by norm_num) (by norm_num) (by norm_num)
        (by norm_num),
      texelFetch_in_range 4 4 _ _ _ (by norm_num) (by norm_num) (by norm_num)
        (by norm_num),
      texelFetch_in_range 4 4 _ _ _ (by norm_num) (by norm_num) (by norm_num)
        (by norm_num),
      texelFetch_in_range 4 4 _ _ _ (by norm_num) (by norm_num) (by norm_num)
        (by norm_num),
      texelFetch_in_range 4 4 _ _ _ (by norm_num) (by norm_num) (by norm_num)
        (by norm_num)]
    norm_num [c21, c01, c12, c10, c11, cexVel6]
  have hSpecP : specConfinementVelocityPlus 4 4 cexVel6 30 (16 / 1000) 1 1 =
      ((0 : ℝ), (0 : ℝ)) + (16 / 1000 : ℝ) •
        (((30 : ℝ) * 1) • glNormalize2 (rotPlus90 ((1 / 2 : ℝ), (1 / 2 : ℝ)))) := by
    simp only [specConfinementVelocityPlus, gradAbsCurl]
    rw [sample_left 4 4 h4 h4, sample_right 4 4 h4 h4, sample_down 4 4 h4 h4,
      sample_up 4 4 h4 h4, sample_texelCenter 4 4 h4 h4, sample_texelCenter 4 4 h4 h4]
    rw [texelFetch_in_range 4 4 _ _ _ (by norm_num) (by norm_num) (by norm_num)
        (by norm_num),
      texelFetch_in_range 4 4 _ _ _ (by norm_num) (by norm_num) (by norm_num)
        (by norm_num),
      texelFetch_in_range 4 4 _ _ _ (by norm_num) (by norm_num) (by norm_num)
        (by norm_num),
      texelFetch_in_range 4 4 _ _ _ (by norm_num) (by norm_num) (by norm_num)
        (by norm_num),
      texelFetch_in_range 4 4 _ _ _ (by norm_num) (by norm_num) (by norm_num)
        (by norm_num),
      texelFetch_in_range 4 4 _ _ _ (by norm_num) (by norm_num) (by norm_num)
        (by norm_num)]
    norm_num [c21, c01, c12, c10, c11, cexVel6]
  constructor
  · intro hEq
    have h2 := congrArg Prod.snd hEq
    rw [hKern, hSpec] at h2
    have hn1 : 0 < (glNormalize2 (((1 : ℝ), (0 : ℝ)) + vEps)).2 := by
      apply glNormalize2_snd_pos
      · norm_num [vEps, Prod.fst_add]
      · norm_num [vEps, Prod.snd_add]
    have hn2 : (glNormalize2 (rotMinus90 ((1 / 2 : ℝ), (1 / 2 : ℝ)))).2 < 0 := by
      apply glNormalize2_snd_neg
      · norm_num [rotMinus90]
      · norm_num [rotMinus90]
    simp only [Prod.snd_add, Prod.smul_snd, smul_eq_mul] at h2
    norm_num at h2
    linarith
  · intro hEq
    have h1 := congrArg Prod.fst hEq
    rw [hKern, hSpecP] at h1
    have hn1 : 0 < (glNormalize2 (((1 : ℝ), (0 : ℝ)) + vEps)).1 := by
      apply glNormalize2_fst_pos
      norm_num [vEps, Prod.fst_add]
    have hn2 : (glNormalize2 (rotPlus90 ((1 / 2 : ℝ), (1 / 2 : ℝ)))).1 < 0 := by
      apply glNormalize2_fst_neg
      · norm_num [rotPlus90]
      · norm_num [rotPlus90]
    simp only [Prod.fst_add, Prod.smul_fst, smul_eq_mul] at h1
    norm_num at h1
    linarith

end

